import Mathlib

/-
Shallow embedding of src/recognition.py (a serverless image-recognition
relay).  The external collaborators (S3 object storage, DynamoDB tables,
the Rekognition API, urllib) are modelled as explicit state and oracle
parameters, following section 6 of the specification:

  - the tasks table is a map from blob id to a task record whose
    attributes are all optional (DynamoDB items are attribute maps;
    update_item performs an upsert that only touches the named
    attributes, put_item replaces the whole item);
  - the cache table maps an etag (content fingerprint) to a cache
    record; every cache write performed by the program includes a
    timestamp, so the timestamp attribute is kept mandatory;
  - object storage maps (bucket, key) to the stored bytes; the ranged
    reads bytes=0-3 and bytes=-2 return the available bytes (first
    min(4, n), respectively last min(2, n) bytes) per the read_range
    collaborator of the spec; a read of a missing key raises a
    ClientError, which process_blob catches as an unexpected fault;
  - the Rekognition call detect_labels is an oracle argument: one
    constructor per outcome distinguished by the except clauses of
    process_blob, with the serialized label list for the success case;
  - wall-clock time is passed in as an argument (now).
-/

namespace Recognition

/-- Status string constants from the top of recognition.py. -/
def STATUS_AWAITING_UPLOAD : String := "AWAITING_UPLOAD"

/-- Status written when Rekognition successfully recognized the image. -/
def STATUS_RECOGNITION_FINISHED : String := "SUCCESSFUL_RECOGNITION"

/-- Status written when the result was extracted from the cache. -/
def STATUS_RECOGNITION_CACHED : String := "SUCCESSFUL_CACHED"

/-- Status written when recognition failed. -/
def STATUS_RECOGNITION_FAILED : String := "FAILED_RECOGNITION"

/-- Status written when a cached failure is copied onto the task. -/
def STATUS_RECOGNITION_CACHED_FAILURE : String := "FAILED_CACHED"

/-- JPEG magic bytes (first three bytes of a JPEG stream). -/
def JPEG_HEADER : List Nat := [0xff, 0xd8, 0xff]

/-- JPEG end-of-image marker (last two bytes of a JPEG stream). -/
def JPEG_FOOTER : List Nat := [0xff, 0xd9]

/-- PNG magic bytes (first four bytes of a PNG stream). -/
def PNG_HEADER : List Nat := [0x89, 0x50, 0x4e, 0x47]

/-- An item of the recognition tasks table.  Every attribute is optional:
DynamoDB items are attribute maps and the program writes different
subsets of attributes at different points. -/
structure TaskRecord where
  status : Option String := none
  timestamp : Option Int := none
  result : Option String := none
  error : Option String := none
  callback_url : Option String := none
  allow_insecure_callback : Option Bool := none
  callback_error : Option String := none
deriving DecidableEq, Repr

/-- The empty DynamoDB item (no attributes). -/
def emptyTask : TaskRecord := {}

/-- An item of the recognition cache table.  Both cache writes of
process_blob include a timestamp, and exactly one of result / error. -/
structure CacheRecord where
  timestamp : Int
  result : Option String := none
  error : Option String := none
deriving DecidableEq, Repr

/-- Joint state of the external stores: the tasks table, the cache
table, and object storage keyed by (bucket, key). -/
structure SysState where
  tasks : String → Option TaskRecord
  cache : String → Option CacheRecord
  storage : String × String → Option (List Nat)

/-- Item produced by the update expression of _update_status applied
to the previous item (or to the empty item on an upsert of a missing
key): status and timestamp are always set, result / error only when
the corresponding argument is not None, and every other attribute
keeps its previous value. -/
def updatedRecord (old : TaskRecord) (statusV : String)
    (resultV errorV : Option String) (now : Int) : TaskRecord :=
  let r1 : TaskRecord := { old with status := some statusV, timestamp := some now }
  let r2 : TaskRecord :=
    match resultV with
    | some r => { r1 with result := some r }
    | none => r1
  match errorV with
  | some e => { r2 with error := some e }
  | none => r2

/-- RecognitionService._update_status: update_item on the tasks table
(upsert semantics). -/
def updateStatus (st : SysState) (blobId statusV : String)
    (resultV errorV : Option String) (now : Int) : SysState :=
  { st with tasks := fun id =>
      if id = blobId then
        some (updatedRecord ((st.tasks blobId).getD emptyTask) statusV resultV errorV now)
      else st.tasks id }

/-- RecognitionService._set_status_from_cache.  Returns the updated
state and whether the cache was hit.  Mirrors the Python control flow:
the branch body runs only when the item exists AND has a result
attribute; inside, an error attribute wins unconditionally, otherwise
a fresh-enough timestamp yields the cached success. -/
def setStatusFromCache (lifetime : Int) (st : SysState) (blobId etag : String)
    (now : Int) : SysState × Bool :=
  match st.cache etag with
  | some item =>
    if item.result.isSome then
      if item.error.isSome then
        (updateStatus st blobId STATUS_RECOGNITION_CACHED_FAILURE none item.error now, true)
      else if now - item.timestamp < lifetime then
        (updateStatus st blobId STATUS_RECOGNITION_CACHED item.result none now, true)
      else (st, false)
    else (st, false)
  | none => (st, false)

/-- Last n bytes of a byte stream, as returned by the ranged read
bytes=-n (all bytes when the stream is shorter than n). -/
def lastBytes (n : Nat) (bs : List Nat) : List Nat := bs.drop (bs.length - n)

/-- The prevalidation filter inlined in process_blob: the first four
bytes are read; a JPEG header demands the JPEG footer in the last two
bytes, otherwise the four bytes must be exactly the PNG header. -/
def prevalidate (bs : List Nat) : Bool :=
  let fileHeader := bs.take 4
  if fileHeader.take 3 = JPEG_HEADER then
    decide (lastBytes 2 bs = JPEG_FOOTER)
  else decide (fileHeader = PNG_HEADER)

/-- Outcome of the detect_labels call, one constructor per outcome
distinguished by the except clauses of process_blob. -/
inductive RekResult where
  | success (labels : String)
  | invalidImageFormat
  | imageTooLarge
  | provisionedThroughputExceeded
  | throttling
  | otherClientError
deriving DecidableEq, Repr

/-- Result of one process_blob invocation: the final state plus trace
flags recording whether detect_labels was invoked and whether the
uploaded blob was deleted from storage. -/
structure ProcResult where
  state : SysState
  rekInvoked : Bool
  deletedBlob : Bool

/-- put_item on the cache table: replaces the whole item. -/
def cachePut (st : SysState) (etag : String) (entry : CacheRecord) : SysState :=
  { st with cache := fun e => if e = etag then some entry else st.cache e }

/-- delete_object on storage. -/
def storageDelete (st : SysState) (key : String × String) : SysState :=
  { st with storage := fun k => if k = key then none else st.storage k }

/-- Tail of process_blob after an exception was mapped to an error
string: write FAILED_RECOGNITION with the error, and also write the
failure cache entry when the error was flagged cacheable. -/
def failureResult (st : SysState) (blobId etag : String) (now : Int)
    (err : String) (shouldCacheError rekInvokedV : Bool) : ProcResult :=
  let st1 := updateStatus st blobId STATUS_RECOGNITION_FAILED none (some err) now
  let st2 :=
    if shouldCacheError then cachePut st1 etag { timestamp := now, error := some err }
    else st1
  ⟨st2, rekInvokedV, false⟩

/-- RecognitionService.process_blob.  The cache consultation runs
first; on a miss the file header (and for JPEG candidates the footer)
is read from storage, then detect_labels runs, and the outcome is
mapped to a terminal status exactly as the except clauses do.  A read
of a missing storage key is a ClientError, hence the 500 branch. -/
def processBlob (lifetime : Int) (st : SysState) (blobId bucket etag : String)
    (now : Int) (rek : RekResult) : ProcResult :=
  if (setStatusFromCache lifetime st blobId etag now).2 then
    ⟨(setStatusFromCache lifetime st blobId etag now).1, false, false⟩
  else
    let st1 := (setStatusFromCache lifetime st blobId etag now).1
    match st1.storage (bucket, blobId) with
    | none => failureResult st1 blobId etag now "500 Internal server error" false false
    | some bytes =>
      if prevalidate bytes then
        match rek with
        | .success labels =>
          let st2 := updateStatus st1 blobId STATUS_RECOGNITION_FINISHED (some labels) none now
          let st3 := cachePut st2 etag { timestamp := now, result := some labels }
          let st4 := storageDelete st3 (bucket, blobId)
          ⟨st4, true, true⟩
        | .invalidImageFormat =>
          failureResult st1 blobId etag now "415 Invalid image format" true true
        | .imageTooLarge =>
          failureResult st1 blobId etag now "400 Image too large" true true
        | .provisionedThroughputExceeded =>
          failureResult st1 blobId etag now "429 Try again later" false true
        | .throttling =>
          failureResult st1 blobId etag now "429 Try again later" false true
        | .otherClientError =>
          failureResult st1 blobId etag now "500 Internal server error" false true
      else
        failureResult st1 blobId etag now "415 Invalid image format" true false

/-- The presigned POST data returned by generate_presigned_post. -/
structure UploadInfo where
  url : String
  fields : List (String × String)
deriving DecidableEq, Repr

/-- RecognitionService.create_blob.  The fresh random blob id and the
presigned-URL generator are oracle arguments; the task record gets the
AWAITING_UPLOAD status, and the callback attributes only when a
callback URL was supplied. -/
def serviceCreateBlob (presign : String → UploadInfo) (st : SysState)
    (blobId : String) (callbackUrl : Option String) (allowInsecure : Bool)
    (now : Int) : (String × UploadInfo) × SysState :=
  let info := presign blobId
  let base : TaskRecord := { status := some STATUS_AWAITING_UPLOAD, timestamp := some now }
  let item : TaskRecord :=
    match callbackUrl with
    | some u => { base with callback_url := some u, allow_insecure_callback := some allowInsecure }
    | none => base
  ((blobId, info),
   { st with tasks := fun id => if id = blobId then some item else st.tasks id })

/-- Outcome of the single urlopen attempt in call_back, one constructor
per except clause (delivered means urlopen returned, i.e. a 2xx
response after redirects). -/
inductive CallbackOutcome where
  | delivered
  | httpError (code : Nat)
  | urlErrorSSL
  | urlErrorOther
  | otherException
deriving DecidableEq, Repr

/-- Error string recorded by call_back for each attempt outcome (none
when the attempt succeeded). -/
def callbackErrorMessage : CallbackOutcome → Option String
  | .delivered => none
  | .httpError code => some ("Server responded with code " ++ toString code)
  | .urlErrorSSL =>
    some "Failed SSL verification, consider using \x27allow_insecure_callback\x27"
  | .urlErrorOther => some "Failed to connect to the callback_url server"
  | .otherException => some "General error while calling back"

/-- The POST request built by call_back (payload and target). -/
structure CallbackRequest where
  url : String
  blobId : String
  statusV : String
  result : Option String
  error : Option String
  insecure : Bool
deriving DecidableEq, Repr

/-- RecognitionService.call_back.  Issues exactly one request; on a
failed attempt it writes the single attribute callback_error onto the
task item (update_item upsert) and touches nothing else. -/
def callBack (st : SysState) (blobId callbackUrl statusV : String)
    (resultV errorV : Option String) (allowInsecure : Bool)
    (outcome : CallbackOutcome) : SysState × List CallbackRequest :=
  let req : CallbackRequest :=
    ⟨callbackUrl, blobId, statusV, resultV, errorV, allowInsecure⟩
  match callbackErrorMessage outcome with
  | none => (st, [req])
  | some msg =>
    let newItem : TaskRecord :=
      { (st.tasks blobId).getD emptyTask with callback_error := some msg }
    let newTasks : String → Option TaskRecord := fun id =>
      if id = blobId then some newItem else st.tasks id
    ({ st with tasks := newTasks }, [req])

/-- One service operation, for reasoning about operation sequences.
Each operation carries the oracle inputs of the call it models. -/
inductive Op where
  | create (blobId : String) (callbackUrl : Option String)
      (allowInsecure : Bool) (now : Int)
  | process (lifetime : Int) (blobId bucket etag : String) (now : Int)
      (rek : RekResult)
  | callback (blobId callbackUrl statusV : String)
      (resultV errorV : Option String) (allowInsecure : Bool)
      (outcome : CallbackOutcome)

/-- State transition of one operation (the presigned data does not
affect the stores, so a trivial presign oracle is used). -/
def applyOp (st : SysState) : Op → SysState
  | .create b cb ins now => (serviceCreateBlob (fun _ => ⟨"", []⟩) st b cb ins now).2
  | .process lifetime b bucket etag now rek =>
    (processBlob lifetime st b bucket etag now rek).state
  | .callback b url s r e ins oc => (callBack st b url s r e ins oc).1

/-- State after a sequence of operations. -/
def applyOps (st : SysState) (ops : List Op) : SysState := ops.foldl applyOp st

/-- Checks that every create in the sequence uses a blob id that is
fresh at that point (models the freshly generated random uuid). -/
def freshCreates (st : SysState) : List Op → Bool
  | [] => true
  | op :: rest =>
    (match op with
     | .create b _ _ _ => (st.tasks b).isNone
     | _ => true) && freshCreates (applyOp st op) rest

/-- A JSON value, as produced by json.loads. -/
inductive JVal where
  | str (s : String)
  | jbool (b : Bool)
  | num (n : Int)
  | null
  | arr (elems : List JVal)
  | obj (fields : List (String × JVal))

/-- Request to the GET /blobs/id handler: none models an event without
pathParameters, some "" a falsy blobId value. -/
structure FetchEvent where
  pathBlobId : Option String

/-- Response body of the GET /blobs/id handler: an error object, or
the task item after the handler deleted the timestamp and
allow_insecure_callback attributes and deserialized result. -/
inductive FetchBody where
  | err (msg : String)
  | item (statusV : Option String) (result : Option JVal) (error : Option String)
      (callback_url : Option String) (callback_error : Option String)

/-- Result of the GET /blobs/id handler: a response or an uncaught
exception (del on a missing timestamp attribute raises KeyError). -/
inductive FetchResult where
  | resp (code : Nat) (body : FetchBody)
  | crash

/-- HTTP status code of a fetch result (none on a crash). -/
def FetchResult.code : FetchResult → Option Nat
  | .resp c _ => some c
  | .crash => none

/-- Lambda entry point fetch_blob_info.  The JSON deserializer
json.loads is an oracle argument applied to the stored result string. -/
def fetchBlobInfo (loads : String → JVal) (tasks : String → Option TaskRecord)
    (ev : FetchEvent) : FetchResult :=
  match ev.pathBlobId with
  | none => .resp 400 (.err "blob id is missing")
  | some bid =>
    if bid = "" then .resp 400 (.err "blob id is missing")
    else
      match tasks bid with
      | none => .resp 404 (.err "not found")
      | some item =>
        match item.timestamp with
        | none => .crash
        | some _ =>
          .resp 200 (.item item.status (item.result.map loads) item.error
            item.callback_url item.callback_error)

/-- A PNG byte stream consisting of just the PNG magic bytes. -/
def pngBytes : List Nat := [0x89, 0x50, 0x4e, 0x47]

/-- State with empty tasks table, empty cache and empty storage. -/
def emptyState : SysState :=
  ⟨fun _ => none, fun _ => none, fun _ => none⟩

/-- Concrete state whose cache holds a failure entry for etag e (as
written by process_blob: timestamp and error, no result attribute) and
whose storage holds a PNG blob at ("bkt", "b"). -/
def stC1 : SysState :=
  { tasks := fun _ => none,
    cache := fun e =>
      if e = "e" then some { timestamp := 0, error := some "415 Invalid image format" }
      else none,
    storage := fun k => if k = ("bkt", "b") then some pngBytes else none }

/-- State whose storage holds a PNG blob at ("bkt", "b") and nothing
else. -/
def stPng : SysState :=
  { tasks := fun _ => none,
    cache := fun _ => none,
    storage := fun k => if k = ("bkt", "b") then some pngBytes else none }

/-- Operation sequence that processes blob b twice with outcomes of
different kinds: a throttled attempt, then a successful recognition. -/
def opsC4 : List Op :=
  [Op.create "b" none false 0,
   Op.process 100 "b" "bkt" "e" 1 RekResult.throttling,
   Op.process 100 "b" "bkt" "e" 2 (RekResult.success "[]")]

/-- Concrete state holding one terminal task record, for the
monotonicity witness. -/
def stC9 : SysState :=
  { tasks := fun id =>
      if id = "b" then
        some { status := some "FAILED_RECOGNITION", timestamp := some 1,
               error := some "415 Invalid image format" }
      else none,
    cache := fun _ => none,
    storage := fun _ => none }

/-- Operation sequence for the monotonicity witness: a fresh create, a
re-process of b, and a callback delivery failure for b. -/
def opsC9 : List Op :=
  [Op.create "c" none false 3,
   Op.process 100 "b" "bkt" "e" 4 RekResult.otherClientError,
   Op.callback "b" "http://cb.example/" "FAILED_RECOGNITION" none
     (some "415 Invalid image format") false (CallbackOutcome.httpError 500)]

/-- Concrete state whose storage holds a one-byte blob at ("bkt", "b"). -/
def stShort : SysState :=
  { tasks := fun _ => none,
    cache := fun _ => none,
    storage := fun k => if k = ("bkt", "b") then some [0xff] else none }

/-- The table entry for a blob id exists and its status differs from
AWAITING_UPLOAD. -/
def taskLeftAwaiting (o : Option TaskRecord) : Prop :=
  ∃ r, o = some r ∧ r.status ≠ some STATUS_AWAITING_UPLOAD

theorem setStatusFromCache_miss (lifetime : Int) (st : SysState) (b e : String)
    (now : Int) (h : (setStatusFromCache lifetime st b e now).2 = false) :
    (setStatusFromCache lifetime st b e now).1 = st := by
  rcases hc : st.cache e with _ | item
  · simp [setStatusFromCache, hc]
  · simp only [setStatusFromCache, hc] at h ⊢
    split_ifs at h ⊢ <;> simp_all

theorem prevalidate_short (bs : List Nat) (h : bs.length < 4) :
    prevalidate bs = false := by
  match bs with
  | [] => decide
  | [a] => simp [prevalidate, JPEG_HEADER, PNG_HEADER]
  | [a, b] => simp [prevalidate, JPEG_HEADER, PNG_HEADER]
  | [a, b, c] =>
    simp only [prevalidate]
    split_ifs with h1
    · simp only [JPEG_HEADER, List.take_succ_cons, List.take_zero] at h1
      obtain ⟨ha, hb, hc⟩ := by simpa using h1
      subst ha; subst hb; subst hc
      decide
    · simp [PNG_HEADER]
  | a :: b :: c :: d :: rest => simp at h; omega

theorem cachePut_tasks (st : SysState) (e : String) (c : CacheRecord) :
    (cachePut st e c).tasks = st.tasks := rfl

theorem storageDelete_tasks (st : SysState) (k : String × String) :
    (storageDelete st k).tasks = st.tasks := rfl

theorem failureResult_tasks (st : SysState) (b e : String) (now : Int)
    (err : String) (sc ri : Bool) :
    (failureResult st b e now err sc ri).state.tasks =
      (updateStatus st b STATUS_RECOGNITION_FAILED none (some err) now).tasks := by
  unfold failureResult
  split_ifs <;> rfl

theorem updatedRecord_status (old : TaskRecord) (sV : String)
    (rV eV : Option String) (n : Int) :
    (updatedRecord old sV rV eV n).status = some sV := by
  cases rV <;> cases eV <;> rfl

theorem updateStatus_tasks_ne (st : SysState) (b' sV : String)
    (rV eV : Option String) (n : Int) (b : String) (hb : b ≠ b') :
    (updateStatus st b' sV rV eV n).tasks b = st.tasks b := by
  simp [updateStatus, hb]

theorem updateStatus_tasks_self (st : SysState) (b' sV : String)
    (rV eV : Option String) (n : Int) :
    (updateStatus st b' sV rV eV n).tasks b' =
      some (updatedRecord ((st.tasks b').getD emptyTask) sV rV eV n) := by
  simp [updateStatus]

theorem taskLeftAwaiting_updateStatus (st : SysState) (b' sV : String)
    (rV eV : Option String) (n : Int) (b : String)
    (hs : sV ≠ STATUS_AWAITING_UPLOAD)
    (h : taskLeftAwaiting (st.tasks b)) :
    taskLeftAwaiting ((updateStatus st b' sV rV eV n).tasks b) := by
  by_cases hb : b = b'
  · subst hb
    refine ⟨_, updateStatus_tasks_self st b sV rV eV n, ?_⟩
    rw [updatedRecord_status]
    intro hEq
    exact hs (Option.some.inj hEq)
  · rw [updateStatus_tasks_ne st b' sV rV eV n b hb]
    exact h

theorem taskLeftAwaiting_setCache (lifetime : Int) (st : SysState) (b' e : String)
    (now : Int) (b : String) (h : taskLeftAwaiting (st.tasks b)) :
    taskLeftAwaiting ((setStatusFromCache lifetime st b' e now).1.tasks b) := by
  rcases hc : st.cache e with _ | item
  · simpa [setStatusFromCache, hc] using h
  · simp only [setStatusFromCache, hc]
    split_ifs <;>
      first
        | (refine taskLeftAwaiting_updateStatus st b' _ _ _ now b ?_ h; decide)
        | simpa using h

theorem taskLeftAwaiting_processBlob (lifetime : Int) (st : SysState)
    (b' bucket e : String) (now : Int) (rek : RekResult) (b : String)
    (h : taskLeftAwaiting (st.tasks b)) :
    taskLeftAwaiting ((processBlob lifetime st b' bucket e now rek).state.tasks b) := by
  have hmid : taskLeftAwaiting ((setStatusFromCache lifetime st b' e now).1.tasks b) :=
    taskLeftAwaiting_setCache lifetime st b' e now b h
  unfold processBlob
  by_cases hhit : (setStatusFromCache lifetime st b' e now).2 = true
  · simp only [hhit, if_true]
    exact hmid
  · simp only [Bool.not_eq_true] at hhit
    simp only [hhit, Bool.false_eq_true, if_false]
    rcases hst : (setStatusFromCache lifetime st b' e now).1.storage (bucket, b') with _ | bytes
    · simp only [hst]
      rw [failureResult_tasks]
      refine taskLeftAwaiting_updateStatus _ b' _ _ _ now b ?_ hmid
      decide
    · simp only [hst]
      by_cases hp : prevalidate bytes = true
      · simp only [hp, if_true]
        cases rek with
        | success labels =>
          rw [storageDelete_tasks, cachePut_tasks]
          refine taskLeftAwaiting_updateStatus _ b' _ _ _ now b ?_ hmid
          decide
        | invalidImageFormat =>
          rw [failureResult_tasks]
          refine taskLeftAwaiting_updateStatus _ b' _ _ _ now b ?_ hmid
          decide
        | imageTooLarge =>
          rw [failureResult_tasks]
          refine taskLeftAwaiting_updateStatus _ b' _ _ _ now b ?_ hmid
          decide
        | provisionedThroughputExceeded =>
          rw [failureResult_tasks]
          refine taskLeftAwaiting_updateStatus _ b' _ _ _ now b ?_ hmid
          decide
        | throttling =>
          rw [failureResult_tasks]
          refine taskLeftAwaiting_updateStatus _ b' _ _ _ now b ?_ hmid
          decide
        | otherClientError =>
          rw [failureResult_tasks]
          refine taskLeftAwaiting_updateStatus _ b' _ _ _ now b ?_ hmid
          decide
      · simp only [Bool.not_eq_true] at hp
        simp only [hp, Bool.false_eq_true, if_false]
        rw [failureResult_tasks]
        refine taskLeftAwaiting_updateStatus _ b' _ _ _ now b ?_ hmid
        decide

theorem serviceCreateBlob_tasks_ne (p : String → UploadInfo) (st : SysState)
    (bNew : String) (cb : Option String) (ins : Bool) (n : Int) (b : String)
    (hb : b ≠ bNew) :
    (serviceCreateBlob p st bNew cb ins n).2.tasks b = st.tasks b := by
  cases cb <;> simp [serviceCreateBlob, hb]

theorem taskLeftAwaiting_callBack (st : SysState) (b' url sV : String)
    (rV eV : Option String) (ins : Bool) (oc : CallbackOutcome) (b : String)
    (h : taskLeftAwaiting (st.tasks b)) :
    taskLeftAwaiting ((callBack st b' url sV rV eV ins oc).1.tasks b) := by
  obtain ⟨r, hr, hs⟩ := h
  unfold callBack
  cases callbackErrorMessage oc with
  | none => exact ⟨r, hr, hs⟩
  | some msg =>
    by_cases hb : b = b'
    · subst hb
      refine ⟨{ r with callback_error := some msg }, ?_, ?_⟩
      · simp [hr]
      · simpa using hs
    · exact ⟨r, by simpa [hb] using hr, hs⟩

/-- C3: the prevalidation filter accepts a byte stream if and only if
either its first three bytes are the JPEG magic sequence and its last
two bytes are the JPEG end marker, or its first four bytes are the PNG
magic sequence; in particular every PNG-headed stream is accepted
regardless of its footer, and altering either JPEG marker causes
rejection. -/
theorem C3_prevalidation_characterization (bs : List Nat) :
    prevalidate bs = true ↔
      ((bs.take 3 = JPEG_HEADER ∧ lastBytes 2 bs = JPEG_FOOTER) ∨
        bs.take 4 = PNG_HEADER) := by
  have htake : (bs.take 4).take 3 = bs.take 3 := by
    rw [List.take_take]
    norm_num
  have hdisj : bs.take 3 = JPEG_HEADER → bs.take 4 ≠ PNG_HEADER := by
    intro h1 h2
    have h3 := congrArg (List.take 3) h2
    rw [htake, h1] at h3
    simp [JPEG_HEADER, PNG_HEADER] at h3
  simp only [prevalidate]
  rw [htake]
  split_ifs with h1
  · simp only [decide_eq_true_eq]
    constructor
    · intro h2
      exact Or.inl ⟨h1, h2⟩
    · rintro (⟨-, h2⟩ | h2)
      · exact h2
      · exact absurd h2 (hdisj h1)
  · simp only [decide_eq_true_eq]
    constructor
    · intro h2
      exact Or.inr h2
    · rintro (⟨h2, -⟩ | h2)
      · exact absurd h2 h1
      · exact h2

/-- C9: once a task record has a status other than AWAITING_UPLOAD, no
subsequent sequence of create (with fresh blob ids), process and
callback operations ever sets it back to AWAITING_UPLOAD. -/
theorem C9_status_monotonic (st : SysState) (ops : List Op) (b : String)
    (hfresh : freshCreates st ops = true) (r : TaskRecord)
    (hr : st.tasks b = some r) (hs : r.status ≠ some STATUS_AWAITING_UPLOAD) :
    ∃ r', (applyOps st ops).tasks b = some r' ∧
      r'.status ≠ some STATUS_AWAITING_UPLOAD := by
  suffices h : ∀ st : SysState, freshCreates st ops = true →
      taskLeftAwaiting (st.tasks b) → taskLeftAwaiting ((applyOps st ops).tasks b) by
    exact h st hfresh ⟨r, hr, hs⟩
  clear hfresh hr hs
  induction ops with
  | nil =>
    intro st _ h2
    simpa [applyOps] using h2
  | cons op rest ih =>
    intro st h1 h2
    cases op with
    | create bNew cb ins now =>
      simp only [freshCreates, Bool.and_eq_true] at h1
      obtain ⟨hop, hrest⟩ := h1
      have hstep : taskLeftAwaiting ((applyOp st (Op.create bNew cb ins now)).tasks b) := by
        obtain ⟨rr, hrr, hss⟩ := h2
        have hb : b ≠ bNew := by
          intro hEq
          rw [hEq] at hrr
          rw [hrr] at hop
          simp at hop
        refine ⟨rr, ?_, hss⟩
        simp only [applyOp]
        rw [serviceCreateBlob_tasks_ne _ st bNew cb ins now b hb]
        exact hrr
      exact ih (applyOp st (Op.create bNew cb ins now)) hrest hstep
    | process lifetime bId bucket etag now rek =>
      simp only [freshCreates, Bool.and_eq_true] at h1
      obtain ⟨-, hrest⟩ := h1
      have hstep := taskLeftAwaiting_processBlob lifetime st bId bucket etag now rek b h2
      exact ih (applyOp st (Op.process lifetime bId bucket etag now rek)) hrest hstep
    | callback bId url sV rV eV ins oc =>
      simp only [freshCreates, Bool.and_eq_true] at h1
      obtain ⟨-, hrest⟩ := h1
      have hstep := taskLeftAwaiting_callBack st bId url sV rV eV ins oc b h2
      exact ih (applyOp st (Op.callback bId url sV rV eV ins oc)) hrest hstep

/-- Witness for C9 at a concrete state and operation sequence. -/
theorem C9_status_monotonic_witness :
    (((applyOps stC9 opsC9).tasks "b").getD emptyTask).status ≠
      some STATUS_AWAITING_UPLOAD := by
  obtain ⟨r', h1, h2⟩ :=
    C9_status_monotonic stC9 opsC9 "b" (by decide)
      { status := some "FAILED_RECOGNITION", timestamp := some 1,
        error := some "415 Invalid image format" }
      (by decide) (by decide)
  rw [h1]
  exact h2

/-- C10: a blob shorter than four bytes whose fingerprint has no
applicable cache entry always takes the 415 path: the task ends with
status FAILED_RECOGNITION and error "415 Invalid image format", and a
failure cache entry is written for the fingerprint. -/
theorem C10_short_blob_415 (lifetime : Int) (st : SysState) (b bucket e : String)
    (now : Int) (rek : RekResult) (bytes : List Nat)
    (hmiss : (setStatusFromCache lifetime st b e now).2 = false)
    (hs : st.storage (bucket, b) = some bytes) (hlen : bytes.length < 4) :
    ∃ r', (processBlob lifetime st b bucket e now rek).state.tasks b = some r' ∧
      r'.status = some STATUS_RECOGNITION_FAILED ∧
      r'.error = some "415 Invalid image format" ∧
      (processBlob lifetime st b bucket e now rek).state.cache e =
        some { timestamp := now, error := some "415 Invalid image format" } := by
  have h1 : (setStatusFromCache lifetime st b e now).1 = st :=
    setStatusFromCache_miss lifetime st b e now hmiss
  have hp : prevalidate bytes = false := prevalidate_short bytes hlen
  unfold processBlob
  rw [hmiss]
  simp only [Bool.false_eq_true, if_false, h1, hs, hp]
  refine ⟨updatedRecord ((st.tasks b).getD emptyTask) STATUS_RECOGNITION_FAILED none
    (some "415 Invalid image format") now, ?_, ?_, ?_, ?_⟩
  · rw [failureResult_tasks]
    exact updateStatus_tasks_self st b STATUS_RECOGNITION_FAILED none
      (some "415 Invalid image format") now
  · rfl
  · rfl
  · simp [failureResult, cachePut, updateStatus]

/-- Witness for C10 at a concrete one-byte blob. -/
theorem C10_short_blob_415_witness :
    (((processBlob 100 stShort "b" "bkt" "e" 7 RekResult.otherClientError).state.tasks
        "b").getD emptyTask).error = some "415 Invalid image format" ∧
    (processBlob 100 stShort "b" "bkt" "e" 7 RekResult.otherClientError).state.cache "e" =
      some { timestamp := 7, error := some "415 Invalid image format" } := by
  obtain ⟨r', h1, h2, h3, h4⟩ :=
    C10_short_blob_415 100 stShort "b" "bkt" "e" 7 RekResult.otherClientError [0xff]
      (by decide) (by decide) (by decide)
  refine ⟨?_, h4⟩
  rw [h1]
  exact h3

/-- C1: evaluation of process_blob at a state whose cache holds a
failure entry for the fingerprint (as written by process_blob itself:
timestamp and error, no result attribute).  Contrary to the claim and
to the docstring of _set_status_from_cache, the entry is treated as a
miss: detect_labels is invoked and the task ends with
SUCCESSFUL_RECOGNITION instead of FAILED_CACHED, because the guard of
_set_status_from_cache demands a result attribute before looking at
the error attribute. -/
theorem C1_cached_failure_entry_missed :
    (processBlob 100 stC1 "b" "bkt" "e" 50 (RekResult.success "[]")).rekInvoked = true ∧
    (processBlob 100 stC1 "b" "bkt" "e" 50 (RekResult.success "[]")).state.tasks "b" =
      some { status := some STATUS_RECOGNITION_FINISHED, timestamp := some 50,
             result := some "[]" } := by
  decide

/-- Counterexample for C4: after a throttled processing attempt
followed by a successful re-processing of the same blob, the task
record carries both a result and an error, because _update_status
leaves attributes it does not overwrite in place. -/
theorem C4_mutual_exclusion_counterexample :
    (applyOps stPng opsC4).tasks "b" =
      some { status := some STATUS_RECOGNITION_FINISHED, timestamp := some 2,
             result := some "[]", error := some "429 Try again later" } ∧
    (((applyOps stPng opsC4).tasks "b").getD emptyTask).result.isSome = true ∧
    (((applyOps stPng opsC4).tasks "b").getD emptyTask).error.isSome = true := by
  decide

/-- Counterexample for C5: a request with no path parameter gets a 400
response, not the 404 stated in the claim. -/
theorem C5_missing_id_counterexample :
    (fetchBlobInfo (fun _ => JVal.null) (fun _ => none) ⟨none⟩).code = some 400 ∧
    (fetchBlobInfo (fun _ => JVal.null) (fun _ => none) ⟨none⟩).code ≠ some 404 := by
  decide

/-- C2: classification of the failure paths of process_blob on a cache
miss.  A prevalidation failure and an invalid-format fault yield the
error "415 Invalid image format" and write a failure cache entry; an
image-too-large fault yields "400 Image too large" and writes a
failure cache entry; throttling faults yield "429 Try again later"
without touching the cache; an unexpected fault (a ClientError, here
including the storage read of a missing blob) yields "500 Internal
server error" without touching the cache; every failure path writes
FAILED_RECOGNITION with the error string onto the task record. -/
theorem C2_failure_classification (lifetime : Int) (st : SysState)
    (b bucket e : String) (now : Int) (rek : RekResult)
    (hmiss : (setStatusFromCache lifetime st b e now).2 = false) :
    (st.storage (bucket, b) = none →
      (processBlob lifetime st b bucket e now rek).state.tasks b =
        some (updatedRecord ((st.tasks b).getD emptyTask) STATUS_RECOGNITION_FAILED none
          (some "500 Internal server error") now) ∧
      (processBlob lifetime st b bucket e now rek).state.cache = st.cache) ∧
    (∀ bytes, st.storage (bucket, b) = some bytes → prevalidate bytes = false →
      (processBlob lifetime st b bucket e now rek).state.tasks b =
        some (updatedRecord ((st.tasks b).getD emptyTask) STATUS_RECOGNITION_FAILED none
          (some "415 Invalid image format") now) ∧
      (processBlob lifetime st b bucket e now rek).state.cache e =
        some { timestamp := now, error := some "415 Invalid image format" }) ∧
    (∀ bytes, st.storage (bucket, b) = some bytes → prevalidate bytes = true →
      rek = RekResult.invalidImageFormat →
      (processBlob lifetime st b bucket e now rek).state.tasks b =
        some (updatedRecord ((st.tasks b).getD emptyTask) STATUS_RECOGNITION_FAILED none
          (some "415 Invalid image format") now) ∧
      (processBlob lifetime st b bucket e now rek).state.cache e =
        some { timestamp := now, error := some "415 Invalid image format" }) ∧
    (∀ bytes, st.storage (bucket, b) = some bytes → prevalidate bytes = true →
      rek = RekResult.imageTooLarge →
      (processBlob lifetime st b bucket e now rek).state.tasks b =
        some (updatedRecord ((st.tasks b).getD emptyTask) STATUS_RECOGNITION_FAILED none
          (some "400 Image too large") now) ∧
      (processBlob lifetime st b bucket e now rek).state.cache e =
        some { timestamp := now, error := some "400 Image too large" }) ∧
    (∀ bytes, st.storage (bucket, b) = some bytes → prevalidate bytes = true →
      (rek = RekResult.provisionedThroughputExceeded ∨ rek = RekResult.throttling) →
      (processBlob lifetime st b bucket e now rek).state.tasks b =
        some (updatedRecord ((st.tasks b).getD emptyTask) STATUS_RECOGNITION_FAILED none
          (some "429 Try again later") now) ∧
      (processBlob lifetime st b bucket e now rek).state.cache = st.cache) ∧
    (∀ bytes, st.storage (bucket, b) = some bytes → prevalidate bytes = true →
      rek = RekResult.otherClientError →
      (processBlob lifetime st b bucket e now rek).state.tasks b =
        some (updatedRecord ((st.tasks b).getD emptyTask) STATUS_RECOGNITION_FAILED none
          (some "500 Internal server error") now) ∧
      (processBlob lifetime st b bucket e now rek).state.cache = st.cache) := by
  have h1 : (setStatusFromCache lifetime st b e now).1 = st :=
    setStatusFromCache_miss lifetime st b e now hmiss
  refine ⟨?_, ?_, ?_, ?_, ?_, ?_⟩
  · intro hsn
    unfold processBlob
    rw [hmiss]
    simp only [Bool.false_eq_true, if_false, h1, hsn]
    constructor
    · rw [failureResult_tasks]
      exact updateStatus_tasks_self st b STATUS_RECOGNITION_FAILED none
        (some "500 Internal server error") now
    · rfl
  · intro bytes hsb hp
    unfold processBlob
    rw [hmiss]
    simp only [Bool.false_eq_true, if_false, h1, hsb, hp]
    constructor
    · rw [failureResult_tasks]
      exact updateStatus_tasks_self st b STATUS_RECOGNITION_FAILED none
        (some "415 Invalid image format") now
    · simp [failureResult, cachePut, updateStatus]
  · intro bytes hsb hp hrek
    subst hrek
    unfold processBlob
    rw [hmiss]
    simp only [Bool.false_eq_true, if_false, h1, hsb, hp, if_true]
    constructor
    · rw [failureResult_tasks]
      exact updateStatus_tasks_self st b STATUS_RECOGNITION_FAILED none
        (some "415 Invalid image format") now
    · simp [failureResult, cachePut, updateStatus]
  · intro bytes hsb hp hrek
    subst hrek
    unfold processBlob
    rw [hmiss]
    simp only [Bool.false_eq_true, if_false, h1, hsb, hp, if_true]
    constructor
    · rw [failureResult_tasks]
      exact updateStatus_tasks_self st b STATUS_RECOGNITION_FAILED none
        (some "400 Image too large") now
    · simp [failureResult, cachePut, updateStatus]
  · intro bytes hsb hp hrek
    rcases hrek with rfl | rfl <;>
      (unfold processBlob
       rw [hmiss]
       simp only [Bool.false_eq_true, if_false, h1, hsb, hp, if_true]
       constructor
       · rw [failureResult_tasks]
         exact updateStatus_tasks_self st b STATUS_RECOGNITION_FAILED none
           (some "429 Try again later") now
       · rfl)
  · intro bytes hsb hp hrek
    subst hrek
    unfold processBlob
    rw [hmiss]
    simp only [Bool.false_eq_true, if_false, h1, hsb, hp, if_true]
    constructor
    · rw [failureResult_tasks]
      exact updateStatus_tasks_self st b STATUS_RECOGNITION_FAILED none
        (some "500 Internal server error") now
    · rfl

/-- Witness for C2 at a concrete PNG blob and an invalid-format fault. -/
theorem C2_failure_classification_witness :
    (processBlob 100 stPng "b" "bkt" "e" 5 RekResult.invalidImageFormat).state.tasks "b" =
      some (updatedRecord ((stPng.tasks "b").getD emptyTask) STATUS_RECOGNITION_FAILED none
        (some "415 Invalid image format") 5) ∧
    (processBlob 100 stPng "b" "bkt" "e" 5 RekResult.invalidImageFormat).state.cache "e" =
      some { timestamp := 5, error := some "415 Invalid image format" } := by
  have h := C2_failure_classification 100 stPng "b" "bkt" "e" 5
    RekResult.invalidImageFormat (by decide)
  exact h.2.2.1 pngBytes (by decide) (by decide) rfl

theorem setStatusFromCache_storage (lifetime : Int) (st : SysState) (b e : String)
    (now : Int) :
    (setStatusFromCache lifetime st b e now).1.storage = st.storage := by
  rcases hc : st.cache e with _ | item
  · simp [setStatusFromCache, hc]
  · simp only [setStatusFromCache, hc]
    split_ifs <;> rfl

theorem setStatusFromCache_cache (lifetime : Int) (st : SysState) (b e : String)
    (now : Int) :
    (setStatusFromCache lifetime st b e now).1.cache = st.cache := by
  rcases hc : st.cache e with _ | item
  · simp [setStatusFromCache, hc]
  · simp only [setStatusFromCache, hc]
    split_ifs <;> rfl

/-- C7: process_blob deletes the uploaded blob from storage exactly
when the call reaches a successful recognition (cache miss, readable
blob, prevalidation pass, success outcome); on success it also writes
SUCCESSFUL_RECOGNITION with the serialized labels and a success cache
entry for the fingerprint; on every other path storage is left
untouched. -/
theorem C7_delete_iff_success (lifetime : Int) (st : SysState) (b bucket e : String)
    (now : Int) (rek : RekResult) :
    ((processBlob lifetime st b bucket e now rek).deletedBlob = true ↔
      ((setStatusFromCache lifetime st b e now).2 = false ∧
        ∃ bytes, st.storage (bucket, b) = some bytes ∧ prevalidate bytes = true ∧
          ∃ l, rek = RekResult.success l)) ∧
    (∀ l bytes, (setStatusFromCache lifetime st b e now).2 = false →
      st.storage (bucket, b) = some bytes → prevalidate bytes = true →
      rek = RekResult.success l →
      (processBlob lifetime st b bucket e now rek).state.tasks b =
        some (updatedRecord ((st.tasks b).getD emptyTask) STATUS_RECOGNITION_FINISHED
          (some l) none now) ∧
      (processBlob lifetime st b bucket e now rek).state.cache e =
        some { timestamp := now, result := some l } ∧
      (processBlob lifetime st b bucket e now rek).state.storage (bucket, b) = none) ∧
    ((processBlob lifetime st b bucket e now rek).deletedBlob = false →
      (processBlob lifetime st b bucket e now rek).state.storage = st.storage) := by
  cases hm : (setStatusFromCache lifetime st b e now).2 with
  | true =>
    have hsc := setStatusFromCache_storage lifetime st b e now
    unfold processBlob
    simp only [hm, if_true]
    refine ⟨by simp, ?_, ?_⟩
    · intro l bytes hmf
      exact absurd hmf (by simp)
    · intro _
      exact hsc
  | false =>
    have h1 := setStatusFromCache_miss lifetime st b e now hm
    unfold processBlob
    simp only [hm, Bool.false_eq_true, if_false, h1]
    rcases hst : st.storage (bucket, b) with _ | bytes
    · simp only [hst]
      refine ⟨by simp [failureResult], ?_, ?_⟩
      · intro l bytes _ hsb
        exact absurd hsb (by simp)
      · intro _
        rfl
    · simp only [hst]
      cases hp : prevalidate bytes with
      | false =>
        simp only [hp, Bool.false_eq_true, if_false]
        refine ⟨by simp [failureResult, hp], ?_, ?_⟩
        · intro l bytes' _ hsb hp'
          obtain rfl : bytes = bytes' := Option.some.inj hsb
          rw [hp] at hp'
          exact absurd hp' (by simp)
        · intro _
          rfl
      | true =>
        simp only [hp, if_true]
        cases rek with
        | success l0 =>
          refine ⟨⟨fun _ => ⟨by trivial, bytes, rfl, hp, l0, rfl⟩, fun _ => rfl⟩, ?_, ?_⟩
          · intro l bytes' _ hsb hp' hrek
            obtain rfl : bytes = bytes' := Option.some.inj hsb
            cases hrek
            refine ⟨?_, ?_, ?_⟩
            · rw [storageDelete_tasks, cachePut_tasks]
              exact updateStatus_tasks_self st b STATUS_RECOGNITION_FINISHED (some l0) none now
            · simp [storageDelete, cachePut, updateStatus]
            · simp [storageDelete]
          · intro hcon
            exact Bool.noConfusion hcon
        | invalidImageFormat =>
          refine ⟨by simp [failureResult], ?_, fun _ => rfl⟩
          intro l bytes' _ hsb hp' hrek
          exact absurd hrek (by simp)
        | imageTooLarge =>
          refine ⟨by simp [failureResult], ?_, fun _ => rfl⟩
          intro l bytes' _ hsb hp' hrek
          exact absurd hrek (by simp)
        | provisionedThroughputExceeded =>
          refine ⟨by simp [failureResult], ?_, fun _ => rfl⟩
          intro l bytes' _ hsb hp' hrek
          exact absurd hrek (by simp)
        | throttling =>
          refine ⟨by simp [failureResult], ?_, fun _ => rfl⟩
          intro l bytes' _ hsb hp' hrek
          exact absurd hrek (by simp)
        | otherClientError =>
          refine ⟨by simp [failureResult], ?_, fun _ => rfl⟩
          intro l bytes' _ hsb hp' hrek
          exact absurd hrek (by simp)

/-- Witness for C7 at a concrete successful recognition. -/
theorem C7_delete_iff_success_witness :
    (processBlob 100 stPng "b" "bkt" "e" 9 (RekResult.success "[]")).state.tasks "b" =
      some (updatedRecord ((stPng.tasks "b").getD emptyTask) STATUS_RECOGNITION_FINISHED
        (some "[]") none 9) ∧
    (processBlob 100 stPng "b" "bkt" "e" 9 (RekResult.success "[]")).state.cache "e" =
      some { timestamp := 9, result := some "[]" } ∧
    (processBlob 100 stPng "b" "bkt" "e" 9 (RekResult.success "[]")).state.storage
      ("bkt", "b") = none := by
  have h := C7_delete_iff_success 100 stPng "b" "bkt" "e" 9 (RekResult.success "[]")
  exact h.2.1 "[]" pngBytes (by decide) (by decide) (by decide) rfl

/-- C8: call_back issues exactly one request; on a successful attempt
the state is untouched; on any failed attempt exactly the
callback_error attribute of the task item is written (all other
records, the cache, storage, and every other attribute of the item,
including status, are unchanged); every non-delivered outcome carries
an error message. -/
theorem C8_callback_single_attempt (st : SysState) (b url statusV : String)
    (resultV errorV : Option String) (ins : Bool) (oc : CallbackOutcome) :
    (callBack st b url statusV resultV errorV ins oc).2 =
      [⟨url, b, statusV, resultV, errorV, ins⟩] ∧
    (oc = CallbackOutcome.delivered →
      (callBack st b url statusV resultV errorV ins oc).1 = st) ∧
    (∀ msg, callbackErrorMessage oc = some msg →
      (∀ id, id ≠ b →
        (callBack st b url statusV resultV errorV ins oc).1.tasks id = st.tasks id) ∧
      (callBack st b url statusV resultV errorV ins oc).1.tasks b =
        some ({ (st.tasks b).getD emptyTask with callback_error := some msg }) ∧
      (callBack st b url statusV resultV errorV ins oc).1.cache = st.cache ∧
      (callBack st b url statusV resultV errorV ins oc).1.storage = st.storage) ∧
    (oc ≠ CallbackOutcome.delivered → ∃ msg, callbackErrorMessage oc = some msg) ∧
    ((((callBack st b url statusV resultV errorV ins oc).1.tasks b).getD
        emptyTask).status = ((st.tasks b).getD emptyTask).status) := by
  cases oc with
  | delivered =>
    refine ⟨rfl, fun _ => rfl, ?_, ?_, rfl⟩
    · intro msg hmsg
      exact Option.noConfusion hmsg
    · intro h
      exact absurd rfl h
  | httpError code =>
    refine ⟨rfl, ?_, ?_, ?_, by simp [callBack, callbackErrorMessage]⟩
    · intro h
      exact CallbackOutcome.noConfusion h
    · intro msg hmsg
      obtain rfl := Option.some.inj hmsg
      refine ⟨?_, ?_, rfl, rfl⟩
      · intro id hid
        simp [callBack, callbackErrorMessage, hid]
      · simp [callBack, callbackErrorMessage]
    · intro _
      exact ⟨_, rfl⟩
  | urlErrorSSL =>
    refine ⟨rfl, ?_, ?_, ?_, by simp [callBack, callbackErrorMessage]⟩
    · intro h
      exact CallbackOutcome.noConfusion h
    · intro msg hmsg
      obtain rfl := Option.some.inj hmsg
      refine ⟨?_, ?_, rfl, rfl⟩
      · intro id hid
        simp [callBack, callbackErrorMessage, hid]
      · simp [callBack, callbackErrorMessage]
    · intro _
      exact ⟨_, rfl⟩
  | urlErrorOther =>
    refine ⟨rfl, ?_, ?_, ?_, by simp [callBack, callbackErrorMessage]⟩
    · intro h
      exact CallbackOutcome.noConfusion h
    · intro msg hmsg
      obtain rfl := Option.some.inj hmsg
      refine ⟨?_, ?_, rfl, rfl⟩
      · intro id hid
        simp [callBack, callbackErrorMessage, hid]
      · simp [callBack, callbackErrorMessage]
    · intro _
      exact ⟨_, rfl⟩
  | otherException =>
    refine ⟨rfl, ?_, ?_, ?_, by simp [callBack, callbackErrorMessage]⟩
    · intro h
      exact CallbackOutcome.noConfusion h
    · intro msg hmsg
      obtain rfl := Option.some.inj hmsg
      refine ⟨?_, ?_, rfl, rfl⟩
      · intro id hid
        simp [callBack, callbackErrorMessage, hid]
      · simp [callBack, callbackErrorMessage]
    · intro _
      exact ⟨_, rfl⟩

/-- Witness for C8 at a concrete failed delivery. -/
theorem C8_callback_single_attempt_witness :
    (callBack emptyState "b" "http://cb.example/" "FAILED_RECOGNITION" none
      (some "x") false (CallbackOutcome.httpError 500)).2 =
      [⟨"http://cb.example/", "b", "FAILED_RECOGNITION", none, some "x", false⟩] ∧
    (callBack emptyState "b" "http://cb.example/" "FAILED_RECOGNITION" none
      (some "x") false (CallbackOutcome.httpError 500)).1.tasks "b" =
      some ({ (emptyState.tasks "b").getD emptyTask with
              callback_error := some "Server responded with code 500" }) := by
  have h := C8_callback_single_attempt emptyState "b" "http://cb.example/"
    "FAILED_RECOGNITION" none (some "x") false (CallbackOutcome.httpError 500)
  exact ⟨h.1, (h.2.2.1 "Server responded with code 500" rfl).2.1⟩

/-- C5 (amended): GET /blobs/id returns 400 with an error body when
the id is missing or empty, 404 with an error body when no task record
exists, and otherwise 200 with the task record in which timestamp and
allow_insecure_callback are removed and result is deserialized from
its stored string form. -/
theorem C5_fetch_blob_info_amended (loads : String → JVal)
    (tasks : String → Option TaskRecord) (ev : FetchEvent) :
    (ev.pathBlobId = none →
      fetchBlobInfo loads tasks ev =
        FetchResult.resp 400 (FetchBody.err "blob id is missing")) ∧
    (∀ bid, ev.pathBlobId = some bid → bid = "" →
      fetchBlobInfo loads tasks ev =
        FetchResult.resp 400 (FetchBody.err "blob id is missing")) ∧
    (∀ bid, ev.pathBlobId = some bid → bid ≠ "" → tasks bid = none →
      fetchBlobInfo loads tasks ev =
        FetchResult.resp 404 (FetchBody.err "not found")) ∧
    (∀ bid r t, ev.pathBlobId = some bid → bid ≠ "" → tasks bid = some r →
      r.timestamp = some t →
      fetchBlobInfo loads tasks ev =
        FetchResult.resp 200 (FetchBody.item r.status (r.result.map loads) r.error
          r.callback_url r.callback_error)) := by
  refine ⟨?_, ?_, ?_, ?_⟩
  · intro h
    simp [fetchBlobInfo, h]
  · intro bid h hb
    subst hb
    simp [fetchBlobInfo, h]
  · intro bid h hb ht
    simp [fetchBlobInfo, h, hb, ht]
  · intro bid r t h hb hr htt
    simp [fetchBlobInfo, h, hb, hr, htt]

/-- Witness for C5 (amended) at a concrete stored record. -/
theorem C5_fetch_blob_info_amended_witness :
    fetchBlobInfo (fun _ => JVal.arr []) stC9.tasks ⟨some "b"⟩ =
      FetchResult.resp 200 (FetchBody.item (some "FAILED_RECOGNITION") none
        (some "415 Invalid image format") none none) := by
  have h := C5_fetch_blob_info_amended (fun _ => JVal.arr []) stC9.tasks ⟨some "b"⟩
  exact h.2.2.2 "b"
    { status := some "FAILED_RECOGNITION", timestamp := some 1,
      error := some "415 Invalid image format" } 1 rfl (by decide) (by decide) rfl

theorem callBack_cache (st : SysState) (b url sV : String) (rV eV : Option String)
    (ins : Bool) (oc : CallbackOutcome) :
    (callBack st b url sV rV eV ins oc).1.cache = st.cache := by
  unfold callBack
  cases callbackErrorMessage oc <;> rfl

theorem updatedRecord_excl (old : TaskRecord) (sV : String) (rV eV : Option String)
    (n : Int) (hre : old.result = none) (heo : old.error = none)
    (hne : rV = none ∨ eV = none) :
    (updatedRecord old sV rV eV n).result = none ∨
      (updatedRecord old sV rV eV n).error = none := by
  rcases hne with rfl | rfl
  · cases eV <;> simp [updatedRecord, hre]
  · cases rV <;> simp [updatedRecord, heo]

theorem serviceCreateBlob_tasks_self (p : String → UploadInfo) (st : SysState)
    (b : String) (cb : Option String) (ins : Bool) (n : Int) :
    ∃ item, (serviceCreateBlob p st b cb ins n).2.tasks b = some item ∧
      item.result = none ∧ item.error = none ∧
      item.status = some STATUS_AWAITING_UPLOAD := by
  cases cb with
  | none =>
    refine ⟨{ status := some STATUS_AWAITING_UPLOAD, timestamp := some n }, ?_, rfl, rfl, rfl⟩
    simp [serviceCreateBlob]
  | some u =>
    refine ⟨{ status := some STATUS_AWAITING_UPLOAD, timestamp := some n,
              callback_url := some u, allow_insecure_callback := some ins }, ?_, rfl, rfl, rfl⟩
    simp [serviceCreateBlob]

theorem setStatusFromCache_tasks_excl (lifetime : Int) (st : SysState) (b e : String)
    (now : Int) (hre : ((st.tasks b).getD emptyTask).result = none)
    (heo : ((st.tasks b).getD emptyTask).error = none) :
    ∀ r, (setStatusFromCache lifetime st b e now).1.tasks b = some r →
      r.result = none ∨ r.error = none := by
  intro r hr
  rcases hc : st.cache e with _ | item
  · simp only [setStatusFromCache, hc] at hr
    exact Or.inl (by rw [hr] at hre; exact hre)
  · simp only [setStatusFromCache, hc] at hr
    split_ifs at hr with h2 h3 h4
    · dsimp only at hr
      rw [updateStatus_tasks_self] at hr
      obtain rfl := Option.some.inj hr
      exact updatedRecord_excl _ _ _ _ _ hre heo (Or.inl rfl)
    · dsimp only at hr
      rw [updateStatus_tasks_self] at hr
      obtain rfl := Option.some.inj hr
      exact updatedRecord_excl _ _ _ _ _ hre heo (Or.inr rfl)
    · dsimp only at hr
      exact Or.inl (by rw [hr] at hre; exact hre)
    · dsimp only at hr
      exact Or.inl (by rw [hr] at hre; exact hre)

theorem processBlob_tasks_excl (lifetime : Int) (st : SysState) (b bucket e : String)
    (now : Int) (rek : RekResult)
    (hre : ((st.tasks b).getD emptyTask).result = none)
    (heo : ((st.tasks b).getD emptyTask).error = none) :
    ∀ r, (processBlob lifetime st b bucket e now rek).state.tasks b = some r →
      r.result = none ∨ r.error = none := by
  intro r hr
  cases hm : (setStatusFromCache lifetime st b e now).2 with
  | true =>
    unfold processBlob at hr
    simp only [hm, if_true] at hr
    exact setStatusFromCache_tasks_excl lifetime st b e now hre heo r hr
  | false =>
    have h1 := setStatusFromCache_miss lifetime st b e now hm
    unfold processBlob at hr
    simp only [hm, Bool.false_eq_true, if_false, h1] at hr
    rcases hst : st.storage (bucket, b) with _ | bytes
    · simp only [hst] at hr
      rw [failureResult_tasks, updateStatus_tasks_self] at hr
      obtain rfl := Option.some.inj hr
      exact updatedRecord_excl _ _ _ _ _ hre heo (Or.inl rfl)
    · simp only [hst] at hr
      cases hp : prevalidate bytes with
      | false =>
        simp only [hp, Bool.false_eq_true, if_false] at hr
        rw [failureResult_tasks, updateStatus_tasks_self] at hr
        obtain rfl := Option.some.inj hr
        exact updatedRecord_excl _ _ _ _ _ hre heo (Or.inl rfl)
      | true =>
        simp only [hp, if_true] at hr
        cases rek with
        | success l =>
          rw [storageDelete_tasks, cachePut_tasks, updateStatus_tasks_self] at hr
          obtain rfl := Option.some.inj hr
          exact updatedRecord_excl _ _ _ _ _ hre heo (Or.inr rfl)
        | invalidImageFormat =>
          rw [failureResult_tasks, updateStatus_tasks_self] at hr
          obtain rfl := Option.some.inj hr
          exact updatedRecord_excl _ _ _ _ _ hre heo (Or.inl rfl)
        | imageTooLarge =>
          rw [failureResult_tasks, updateStatus_tasks_self] at hr
          obtain rfl := Option.some.inj hr
          exact updatedRecord_excl _ _ _ _ _ hre heo (Or.inl rfl)
        | provisionedThroughputExceeded =>
          rw [failureResult_tasks, updateStatus_tasks_self] at hr
          obtain rfl := Option.some.inj hr
          exact updatedRecord_excl _ _ _ _ _ hre heo (Or.inl rfl)
        | throttling =>
          rw [failureResult_tasks, updateStatus_tasks_self] at hr
          obtain rfl := Option.some.inj hr
          exact updatedRecord_excl _ _ _ _ _ hre heo (Or.inl rfl)
        | otherClientError =>
          rw [failureResult_tasks, updateStatus_tasks_self] at hr
          obtain rfl := Option.some.inj hr
          exact updatedRecord_excl _ _ _ _ _ hre heo (Or.inl rfl)

theorem processBlob_cache (lifetime : Int) (st : SysState) (b bucket e : String)
    (now : Int) (rek : RekResult) (x : String) :
    (processBlob lifetime st b bucket e now rek).state.cache x = st.cache x ∨
    ∃ entry, (processBlob lifetime st b bucket e now rek).state.cache x = some entry ∧
      (entry.result = none ∨ entry.error = none) := by
  cases hm : (setStatusFromCache lifetime st b e now).2 with
  | true =>
    unfold processBlob
    simp only [hm, if_true]
    exact Or.inl (congrFun (setStatusFromCache_cache lifetime st b e now) x)
  | false =>
    have h1 := setStatusFromCache_miss lifetime st b e now hm
    unfold processBlob
    simp only [hm, Bool.false_eq_true, if_false, h1]
    rcases hst : st.storage (bucket, b) with _ | bytes
    · simp only [hst]
      exact Or.inl rfl
    · simp only [hst]
      cases hp : prevalidate bytes with
      | false =>
        simp only [hp, Bool.false_eq_true, if_false]
        by_cases he : x = e
        · subst he
          exact Or.inr ⟨{ timestamp := now, error := some "415 Invalid image format" },
            by simp [failureResult, cachePut, updateStatus], Or.inl rfl⟩
        · exact Or.inl (by simp [failureResult, cachePut, updateStatus, he])
      | true =>
        simp only [hp, if_true]
        cases rek with
        | success l =>
          by_cases he : x = e
          · subst he
            exact Or.inr ⟨{ timestamp := now, result := some l },
              by simp [storageDelete, cachePut, updateStatus], Or.inr rfl⟩
          · exact Or.inl (by simp [storageDelete, cachePut, updateStatus, he])
        | invalidImageFormat =>
          by_cases he : x = e
          · subst he
            exact Or.inr ⟨{ timestamp := now, error := some "415 Invalid image format" },
              by simp [failureResult, cachePut, updateStatus], Or.inl rfl⟩
          · exact Or.inl (by simp [failureResult, cachePut, updateStatus, he])
        | imageTooLarge =>
          by_cases he : x = e
          · subst he
            exact Or.inr ⟨{ timestamp := now, error := some "400 Image too large" },
              by simp [failureResult, cachePut, updateStatus], Or.inl rfl⟩
          · exact Or.inl (by simp [failureResult, cachePut, updateStatus, he])
        | provisionedThroughputExceeded =>
          exact Or.inl rfl
        | throttling =>
          exact Or.inl rfl
        | otherClientError =>
          exact Or.inl rfl

/-- C4 (amended): result and error are mutually exclusive on every
reachable cache record under any operation sequence, and on a task
record through its creation and a single processing; re-processing the
same blob id with outcomes of different kinds can leave both present
on the task record, because _update_status preserves attributes it
does not overwrite. -/
theorem C4_mutual_exclusion_amended :
    (∀ st ops,
      (∀ e c, st.cache e = some c → c.result = none ∨ c.error = none) →
      ∀ e c, (applyOps st ops).cache e = some c → c.result = none ∨ c.error = none) ∧
    (∀ presign st bid cb ins now lifetime bucket etag now2 rek r,
      (processBlob lifetime ((serviceCreateBlob presign st bid cb ins now).2) bid
        bucket etag now2 rek).state.tasks bid = some r →
      r.result = none ∨ r.error = none) := by
  constructor
  · intro st ops
    induction ops generalizing st with
    | nil => exact fun h e c hc => h e c hc
    | cons op rest ih =>
      intro h
      refine ih (applyOp st op) ?_
      cases op with
      | create bNew cb ins now =>
        exact fun e c hc => h e c hc
      | process lifetime bId bucket etag now rek =>
        intro x c hc
        simp only [applyOp] at hc
        rcases processBlob_cache lifetime st bId bucket etag now rek x with huc | ⟨entry, he2, hex⟩
        · rw [huc] at hc
          exact h x c hc
        · rw [he2] at hc
          obtain rfl := Option.some.inj hc
          exact hex
      | callback bId url sV rV eV ins oc =>
        intro x c hc
        simp only [applyOp] at hc
        rw [callBack_cache] at hc
        exact h x c hc
  · intro presign st bid cb ins now lifetime bucket etag now2 rek r hr
    obtain ⟨item, hitem, hres, herr, -⟩ :=
      serviceCreateBlob_tasks_self presign st bid cb ins now
    exact processBlob_tasks_excl lifetime _ bid bucket etag now2 rek
      (by rw [hitem]; exact hres) (by rw [hitem]; exact herr) r hr

/-- Witness for C4 (amended): the success cache entry written by a
concrete operation sequence satisfies the exclusion. -/
theorem C4_mutual_exclusion_amended_witness :
    ({ timestamp := 2, result := some "[]" } : CacheRecord).result = none ∨
    ({ timestamp := 2, result := some "[]" } : CacheRecord).error = none := by
  exact C4_mutual_exclusion_amended.1 stPng opsC4
    (fun e c hc => Option.noConfusion hc) "e"
    { timestamp := 2, result := some "[]" } (by decide)

end Recognition
